import Mathlib

/-!
Verification of the LastDrop backend core (src/main.py, src/schemas.py).

Shallow embedding conventions:
* The Mongo document store is modelled as explicit lists kept in insertion
  order; an insert appends at the end, and find_one / update_one / delete_one
  act on the first element matching the filter, which is Mongo's natural-order
  behaviour for these collections.
* Mongo ObjectIds are modelled as natural numbers; the Python round-trip
  str(ObjectId) / ObjectId(string) is a bijection and is modelled by the
  identity, so a stored retailer_id string is represented directly by the Nat
  id it denotes.  Generated ids come from a nextId counter in the state.
* time.time() returns real-valued seconds; time is modelled as Rat (every
  finite float is rational, and the code only adds a constant and compares).
* secrets.token_urlsafe(32) is an external random source; the generated token
  is passed to login as an explicit parameter.
* Raising HTTPException(status, detail) is modelled by Except.error of an
  Http value; every endpoint that mutates the store returns the new state
  next to the result, the state being unchanged when an exception is raised
  before any write (FastAPI aborts the handler at the raise).
* Python floats carried opaquely (total_amount, price) are modelled as Rat;
  the code never performs arithmetic on them, it only stores and returns them.
* hashlib.sha256 is embedded as a full SHA-256 implementation over byte lists
  (FIPS 180-4), with 32-bit words as Nat reduced mod 2^32, and .encode() as
  UTF-8 byte encoding of the string.
-/

/-- HTTPException payload: status code and detail message. -/
structure Http where
  status : Nat
  detail : String
deriving DecidableEq, Repr

/-- Retailer document (schemas.py, class Retailer); role is the fixed literal
string "retailer". -/
structure Retailer where
  email : String
  password_hash : String
  company : Option String
  contact_name : Option String
  role : String
deriving DecidableEq, Repr

/-- Session document (schemas.py, class Session); retailer_id is the stored
str(ObjectId) of the retailer, modelled as the Nat id itself. -/
structure Session where
  token : String
  retailer_id : Nat
  expires_at : Rat
deriving DecidableEq, Repr

/-- OrderItem document (schemas.py, class OrderItem). -/
structure OrderItem where
  sku : String
  title : String
  qty : Int
  price : Rat
deriving DecidableEq, Repr

/-- Order status literal: processing, shipped, completed or cancelled. -/
inductive OrderStatus where
  | processing
  | shipped
  | completed
  | cancelled
deriving DecidableEq, Repr

/-- Order document (schemas.py, class Order). -/
structure OrderDoc where
  retailer_id : Nat
  order_number : String
  status : OrderStatus
  total_amount : Rat
  currency : String
  items : List OrderItem
  notes : Option String
deriving DecidableEq, Repr

/-- Request body of POST /api/auth/register (main.py, class RegisterIn). -/
structure RegisterIn where
  email : String
  password : String
  company : Option String
  contact_name : Option String
deriving DecidableEq, Repr

/-- Request body of POST /api/auth/login (main.py, class LoginIn). -/
structure LoginIn where
  email : String
  password : String
deriving DecidableEq, Repr

/-- Request body of the order endpoints (main.py, class OrderIn).  Pydantic
validates exactly these six fields and drops unknown keys, so a client-supplied
retailer_id never reaches the handler: the model has no such field. -/
structure OrderIn where
  order_number : String
  status : OrderStatus
  total_amount : Rat
  currency : String
  items : List OrderItem
  notes : Option String
deriving DecidableEq, Repr

/-- The document database: the retailer, session and order collections in
insertion order (retailers and orders paired with their generated _id), plus
the id generator. -/
structure DBState where
  retailers : List (Nat × Retailer)
  sessions : List Session
  orders : List (Nat × OrderDoc)
  nextId : Nat
deriving DecidableEq, Repr

/-! ## SHA-256 (the embedding of hashlib.sha256, FIPS 180-4) -/

/-- Reduction of a Nat to a 32-bit word. -/
def w32 (n : Nat) : Nat := n % 4294967296

/-- Right rotation of a 32-bit word by k bits. -/
def rotr (k x : Nat) : Nat := w32 ((x >>> k) ||| (x <<< (32 - k)))

/-- SHA-256 big Sigma0. -/
def bSig0 (x : Nat) : Nat := (rotr 2 x) ^^^ (rotr 13 x) ^^^ (rotr 22 x)

/-- SHA-256 big Sigma1. -/
def bSig1 (x : Nat) : Nat := (rotr 6 x) ^^^ (rotr 11 x) ^^^ (rotr 25 x)

/-- SHA-256 small sigma0. -/
def sSig0 (x : Nat) : Nat := (rotr 7 x) ^^^ (rotr 18 x) ^^^ (x >>> 3)

/-- SHA-256 small sigma1. -/
def sSig1 (x : Nat) : Nat := (rotr 17 x) ^^^ (rotr 19 x) ^^^ (x >>> 10)

/-- SHA-256 Ch function; the bitwise complement is taken within 32 bits. -/
def chOp (x y z : Nat) : Nat := (x &&& y) ^^^ ((4294967295 ^^^ x) &&& z)

/-- SHA-256 Maj function. -/
def majOp (x y z : Nat) : Nat := (x &&& y) ^^^ (x &&& z) ^^^ (y &&& z)

/-- The 64 SHA-256 round constants of FIPS 180-4, written in decimal. -/
def sha256K : List Nat :=
  [1116352408, 1899447441, 3049323471, 3921009573,
   961987163, 1508970993, 2453635748, 2870763221,
   3624381080, 310598401, 607225278, 1426881987,
   1925078388, 2162078206, 2614888103, 3248222580,
   3835390401, 4022224774, 264347078, 604807628,
   770255983, 1249150122, 1555081692, 1996064986,
   2554220882, 2821834349, 2952996808, 3210313671,
   3336571891, 3584528711, 113926993, 338241895,
   666307205, 773529912, 1294757372, 1396182291,
   1695183700, 1986661051, 2177026350, 2456956037,
   2730485921, 2820302411, 3259730800, 3345764771,
   3516065817, 3600352804, 4094571909, 275423344,
   430227734, 506948616, 659060556, 883997877,
   958139571, 1322822218, 1537002063, 1747873779,
   1955562222, 2024104815, 2227730452, 2361852424,
   2428436474, 2756734187, 3204031479, 3329325298]

/-- The SHA-256 initial hash value of FIPS 180-4, written in decimal. -/
def sha256H0 : List Nat :=
  [1779033703, 3144134277, 1013904242, 2773480762,
   1359893119, 2600822924, 528734635, 1541459225]

/-- Working variables of the compression loop. -/
structure Words8 where
  a : Nat
  b : Nat
  c : Nat
  d : Nat
  e : Nat
  f : Nat
  g : Nat
  h : Nat

/-- One round of the SHA-256 compression loop; kw is the pair of round
constant and schedule word. -/
def roundStep (s : Words8) (kw : Nat × Nat) : Words8 :=
  let t1 := w32 (s.h + bSig1 s.e + chOp s.e s.f s.g + kw.1 + kw.2)
  let t2 := w32 (bSig0 s.a + majOp s.a s.b s.c)
  ⟨w32 (t1 + t2), s.a, s.b, s.c, w32 (s.d + t1), s.e, s.f, s.g⟩

/-- Message-schedule extension of a 16-word block to 64 words. -/
def schedule (ws : List Nat) : List Nat :=
  (List.range 48).foldl
    (fun acc _ =>
      let n := acc.length
      acc ++ [w32 (sSig1 (acc.getD (n - 2) 0) + acc.getD (n - 7) 0 +
                   sSig0 (acc.getD (n - 15) 0) + acc.getD (n - 16) 0)])
    ws

/-- SHA-256 compression of one 16-word block into the running hash. -/
def compress (hs : List Nat) (block : List Nat) : List Nat :=
  let w := schedule block
  let init : Words8 :=
    ⟨hs.getD 0 0, hs.getD 1 0, hs.getD 2 0, hs.getD 3 0,
     hs.getD 4 0, hs.getD 5 0, hs.getD 6 0, hs.getD 7 0⟩
  let fin := (sha256K.zip w).foldl roundStep init
  [w32 (hs.getD 0 0 + fin.a), w32 (hs.getD 1 0 + fin.b),
   w32 (hs.getD 2 0 + fin.c), w32 (hs.getD 3 0 + fin.d),
   w32 (hs.getD 4 0 + fin.e), w32 (hs.getD 5 0 + fin.f),
   w32 (hs.getD 6 0 + fin.g), w32 (hs.getD 7 0 + fin.h)]

/-- Big-endian 8-byte encoding of the message bit length. -/
def bytesBE8 (n : Nat) : List Nat :=
  [n / 72057594037927936 % 256, n / 281474976710656 % 256,
   n / 1099511627776 % 256, n / 4294967296 % 256,
   n / 16777216 % 256, n / 65536 % 256, n / 256 % 256, n % 256]

/-- SHA-256 padding: append 0x80, zeros to 56 mod 64, then the bit length. -/
def padMsg (ms : List Nat) : List Nat :=
  let L := ms.length
  ms ++ 128 :: List.replicate ((120 - (L + 1) % 64) % 64) 0 ++ bytesBE8 (L * 8)

/-- Big-endian combination of four bytes into one 32-bit word. -/
def word32BE (a b c d : Nat) : Nat := a * 16777216 + b * 65536 + c * 256 + d

/-- Grouping of a byte list into big-endian 32-bit words. -/
def bytesToWords : List Nat → List Nat
  | a :: b :: c :: d :: rest => word32BE a b c d :: bytesToWords rest
  | _ => []

/-- Splitting of a byte list into 64-byte chunks, with a fuel argument that
makes the recursion structural; the fuel is instantiated with the list length,
which bounds the number of chunks. -/
def chunksOf64 : Nat → List Nat → List (List Nat)
  | 0, _ => []
  | _ + 1, [] => []
  | fuel + 1, a :: rest => (a :: rest).take 64 :: chunksOf64 fuel ((a :: rest).drop 64)

/-- Splitting of a byte list into 64-byte chunks. -/
def chunk64 (l : List Nat) : List (List Nat) := chunksOf64 l.length l

/-- Big-endian 4-byte decomposition of a 32-bit word. -/
def wordBytes (w : Nat) : List Nat :=
  [w / 16777216 % 256, w / 65536 % 256, w / 256 % 256, w % 256]

/-- SHA-256 of a byte list, as the list of the 32 digest bytes. -/
def sha256 (ms : List Nat) : List Nat :=
  let blocks := (chunk64 (padMsg ms)).map bytesToWords
  ((blocks.foldl compress sha256H0).map wordBytes).flatten

/-- Lowercase hex character for a value below 16 (hexdigest uses lowercase). -/
def hexChar (n : Nat) : Char :=
  if n < 10 then Char.ofNat (48 + n) else Char.ofNat (87 + n)

/-- Lowercase hex string of a byte list, two characters per byte, matching
hashlib's hexdigest. -/
def hexOfBytes (bs : List Nat) : String :=
  String.mk ((bs.map (fun b => [hexChar (b / 16), hexChar (b % 16)])).flatten)

/-- UTF-8 encoding of one code point (str.encode() uses UTF-8 by default). -/
def utf8EncodeChar (n : Nat) : List Nat :=
  if n < 128 then [n]
  else if n < 2048 then [192 + n / 64, 128 + n % 64]
  else if n < 65536 then [224 + n / 4096, 128 + n / 64 % 64, 128 + n % 64]
  else [240 + n / 262144, 128 + n / 4096 % 64, 128 + n / 64 % 64, 128 + n % 64]

/-- UTF-8 byte encoding of a string. -/
def strBytes (s : String) : List Nat :=
  (s.data.map (fun c => utf8EncodeChar c.toNat)).flatten

/-! ## Credential hasher (main.py lines 89-94) -/

/-- The process-wide static salt (main.py line 89). -/
def SALT : String := "ld_static_salt_v1"

/-- Embedding of hash_password (main.py lines 91-94): the stored form is the
salt, a dollar sign, then the lowercase hex SHA-256 digest of salt plus
plaintext.  A Lean def is pure and total, which embeds the facts that hashing
has no side effects, accepts any string and is deterministic. -/
def hash_password (pw : String) : String :=
  SALT ++ "$" ++ hexOfBytes (sha256 (strBytes (SALT ++ pw)))

set_option maxRecDepth 20000 in
/-- Sanity check of the SHA-256 embedding against the FIPS test vector for the
empty message. -/
theorem sha256_empty_vector :
    hexOfBytes (sha256 []) =
      "e3b0c44298fc1c149afbf4c8996fb92427ae41e4649b934ca495991b7852b855" := by
  rfl

/-! ## Auth endpoints (main.py lines 96-137) -/

/-- ASCII lowercasing of one character.  str.lower() is Unicode-aware, but the
only comparison made on the lowered header is against the ASCII marker
"bearer ", for which ASCII lowercasing is the relevant behaviour. -/
def lowerChar (c : Char) : Char :=
  if 65 ≤ c.toNat ∧ c.toNat ≤ 90 then Char.ofNat (c.toNat + 32) else c

/-- Lowercasing of a string, modelling str.lower() on the header. -/
def lowerStr (s : String) : String := String.mk (s.data.map lowerChar)

/-- Everything after the first space, modelling split(" ", 1)[1].  The code
only reaches the split when the header was seen to start with a bearer marker,
which guarantees a space is present. -/
def splitOnceTail (s : String) : String :=
  ((s.data.dropWhile (fun c => c ≠ ' ')).drop 1).asString

/-- Check that the lowercased header starts with the bearer marker,
modelling authorization.lower().startswith("bearer "). -/
def bearerHeader (a : String) : Bool := "bearer ".data.isPrefixOf (lowerStr a).data

/-- Embedding of register (main.py lines 96-109): reject when a retailer with
the same email already exists, else insert the new retailer document.  The
state is returned unchanged when the exception aborts the handler. -/
def register (db : DBState) (data : RegisterIn) : Except Http Nat × DBState :=
  let existing := db.retailers.filter (fun p => p.2.email == data.email)
  if existing.isEmpty then
    let doc : Retailer :=
      ⟨data.email, hash_password data.password, data.company, data.contact_name, "retailer"⟩
    let rid := db.nextId
    (Except.ok rid,
     { db with retailers := db.retailers ++ [(rid, doc)], nextId := db.nextId + 1 })
  else
    (Except.error ⟨400, "Account already exists"⟩, db)

/-- Embedding of login (main.py lines 111-121): look the retailer up by email,
compare the stored hash against the hash of the supplied password, and on
success persist a session expiring 60*60*24*7 seconds from now.  The token
produced by secrets.token_urlsafe(32) and the current time time.time() are
explicit parameters. -/
def login (db : DBState) (data : LoginIn) (token : String) (now : Rat) :
    Except Http String × DBState :=
  match db.retailers.find? (fun p => p.2.email == data.email) with
  | none => (Except.error ⟨401, "Invalid credentials"⟩, db)
  | some rec =>
    if rec.2.password_hash == hash_password data.password then
      let sess : Session := ⟨token, rec.1, now + 60 * 60 * 24 * 7⟩
      (Except.ok token,
       { db with sessions := db.sessions ++ [sess], nextId := db.nextId + 1 })
    else
      (Except.error ⟨401, "Invalid credentials"⟩, db)

/-- Embedding of get_current_retailer (main.py lines 125-137): a missing or
non-bearer Authorization header is rejected as "Missing token"; the token is
what follows the first space; a missing session or one whose expires_at is
strictly below the current time is rejected as "Invalid or expired token";
then the session's retailer must resolve or the request is rejected as
"Retailer not found".  An absent header is None and an empty header string is
falsy in Python; both take the first rejection. -/
def get_current_retailer (db : DBState) (authorization : Option String) (now : Rat) :
    Except Http (Nat × Retailer) :=
  match authorization with
  | none => Except.error ⟨401, "Missing token"⟩
  | some a =>
    if bearerHeader a then
      let token := splitOnceTail a
      match db.sessions.find? (fun s => s.token == token) with
      | none => Except.error ⟨401, "Invalid or expired token"⟩
      | some sess =>
        if sess.expires_at < now then Except.error ⟨401, "Invalid or expired token"⟩
        else
          match db.retailers.find? (fun p => p.1 == sess.retailer_id) with
          | some r => Except.ok r
          | none => Except.error ⟨401, "Retailer not found"⟩
    else Except.error ⟨401, "Missing token"⟩

/-! ## Order endpoints (main.py lines 141-184); current is the retailer
document resolved by get_current_retailer, passed as a Depends parameter. -/

/-- Embedding of list_orders (main.py lines 149-156): all orders whose
retailer_id equals the authenticated retailer's id. -/
def list_orders (db : DBState) (current : Nat × Retailer) : List (Nat × OrderDoc) :=
  db.orders.filter (fun p => p.2.retailer_id == current.1)

/-- Embedding of create_order (main.py lines 158-170): the stored document
takes retailer_id from the authenticated identity and every other field from
the request body; the generated id is returned. -/
def create_order (db : DBState) (current : Nat × Retailer) (data : OrderIn) :
    Nat × DBState :=
  let ord_doc : OrderDoc :=
    ⟨current.1, data.order_number, data.status, data.total_amount,
     data.currency, data.items, data.notes⟩
  let oid := db.nextId
  (oid, { db with orders := db.orders ++ [(oid, ord_doc)], nextId := db.nextId + 1 })

/-- The effect of the dollar-set document of update_order: data.model_dump()
holds exactly the six OrderIn fields, so exactly those six fields are set and
retailer_id is untouched. -/
def applySet (doc : OrderDoc) (data : OrderIn) : OrderDoc :=
  { doc with
    order_number := data.order_number, status := data.status,
    total_amount := data.total_amount, currency := data.currency,
    items := data.items, notes := data.notes }

/-- Mongo update_one on the order collection with filter _id = oid and
retailer_id = rid: the first matching document is updated, all others are
untouched; matching nothing is not an error. -/
def update_one (orders : List (Nat × OrderDoc)) (oid rid : Nat) (data : OrderIn) :
    List (Nat × OrderDoc) :=
  match orders with
  | [] => []
  | o :: rest =>
    if o.1 == oid && o.2.retailer_id == rid then (o.1, applySet o.2 data) :: rest
    else o :: update_one rest oid rid data

/-- Mongo delete_one on the order collection with filter _id = oid and
retailer_id = rid: the first matching document is removed; matching nothing is
not an error. -/
def delete_one (orders : List (Nat × OrderDoc)) (oid rid : Nat) :
    List (Nat × OrderDoc) :=
  match orders with
  | [] => []
  | o :: rest =>
    if o.1 == oid && o.2.retailer_id == rid then rest
    else o :: delete_one rest oid rid

/-- Embedding of update_order (main.py lines 172-177): update_one filtered by
both the path order id and the authenticated retailer's id, always answering
with the status string ok. -/
def update_order (db : DBState) (current : Nat × Retailer) (oid : Nat) (data : OrderIn) :
    String × DBState :=
  ("ok", { db with orders := update_one db.orders oid current.1 data })

/-- Embedding of delete_order (main.py lines 179-184): delete_one filtered by
both the path order id and the authenticated retailer's id, always answering
with the status string ok. -/
def delete_order (db : DBState) (current : Nat × Retailer) (oid : Nat) :
    String × DBState :=
  ("ok", { db with orders := delete_one db.orders oid current.1 })

/-! ## Helper lemmas about the filtered single-document operations -/

/-- A document whose retailer_id differs from the filter's retailer id is left
in place by update_one, whatever the filtered order id is. -/
theorem mem_update_one_of_ne_owner {orders : List (Nat × OrderDoc)} {p : Nat × OrderDoc}
    (oid rid : Nat) (data : OrderIn)
    (hmem : p ∈ orders) (hne : p.2.retailer_id ≠ rid) :
    p ∈ update_one orders oid rid data := by
  induction orders with
  | nil => simpa using hmem
  | cons o rest ih =>
    by_cases hmatch : (o.1 == oid && o.2.retailer_id == rid) = true
    · simp only [update_one, hmatch, if_true]
      rcases List.mem_cons.mp hmem with h | h
      · exfalso
        apply hne
        rw [h]
        exact (beq_iff_eq.mp (Bool.and_elim_right hmatch))
      · exact List.mem_cons_of_mem _ h
    · simp only [update_one, hmatch, if_false]
      rcases List.mem_cons.mp hmem with h | h
      · exact h ▸ List.mem_cons_self _ _
      · exact List.mem_cons_of_mem _ (ih h)

/-- A document whose retailer_id differs from the filter's retailer id is left
in place by delete_one, whatever the filtered order id is. -/
theorem mem_delete_one_of_ne_owner {orders : List (Nat × OrderDoc)} {p : Nat × OrderDoc}
    (oid rid : Nat)
    (hmem : p ∈ orders) (hne : p.2.retailer_id ≠ rid) :
    p ∈ delete_one orders oid rid := by
  induction orders with
  | nil => simpa using hmem
  | cons o rest ih =>
    by_cases hmatch : (o.1 == oid && o.2.retailer_id == rid) = true
    · simp only [delete_one, hmatch, if_true]
      rcases List.mem_cons.mp hmem with h | h
      · exfalso
        apply hne
        rw [h]
        exact (beq_iff_eq.mp (Bool.and_elim_right hmatch))
      · exact h
    · simp only [delete_one, hmatch, if_false]
      rcases List.mem_cons.mp hmem with h | h
      · exact h ▸ List.mem_cons_self _ _
      · exact List.mem_cons_of_mem _ (ih h)

/-- When no document matches the dual filter, update_one is the identity. -/
theorem update_one_eq_of_no_match {orders : List (Nat × OrderDoc)} (oid rid : Nat)
    (data : OrderIn)
    (hno : ∀ p ∈ orders, ¬(p.1 = oid ∧ p.2.retailer_id = rid)) :
    update_one orders oid rid data = orders := by
  induction orders with
  | nil => rfl
  | cons o rest ih =>
    have hohead : ¬(o.1 = oid ∧ o.2.retailer_id = rid) := hno o (List.mem_cons_self _ _)
    have hmatch : (o.1 == oid && o.2.retailer_id == rid) = false := by
      rw [Bool.and_eq_false_iff]
      by_cases h1 : o.1 = oid
      · right
        rw [beq_eq_false_iff_ne]
        exact fun h2 => hohead ⟨h1, h2⟩
      · left
        rw [beq_eq_false_iff_ne]
        exact h1
    simp only [update_one, hmatch, Bool.false_eq_true, if_false]
    rw [ih (fun p hp => hno p (List.mem_cons_of_mem _ hp))]

/-- When no document matches the dual filter, delete_one is the identity. -/
theorem delete_one_eq_of_no_match {orders : List (Nat × OrderDoc)} (oid rid : Nat)
    (hno : ∀ p ∈ orders, ¬(p.1 = oid ∧ p.2.retailer_id = rid)) :
    delete_one orders oid rid = orders := by
  induction orders with
  | nil => rfl
  | cons o rest ih =>
    have hohead : ¬(o.1 = oid ∧ o.2.retailer_id = rid) := hno o (List.mem_cons_self _ _)
    have hmatch : (o.1 == oid && o.2.retailer_id == rid) = false := by
      rw [Bool.and_eq_false_iff]
      by_cases h1 : o.1 = oid
      · right
        rw [beq_eq_false_iff_ne]
        exact fun h2 => hohead ⟨h1, h2⟩
      · left
        rw [beq_eq_false_iff_ne]
        exact h1
    simp only [delete_one, hmatch, Bool.false_eq_true, if_false]
    rw [ih (fun p hp => hno p (List.mem_cons_of_mem _ hp))]

/-- The id and owner of every document are untouched by update_one. -/
theorem update_one_map_owner (orders : List (Nat × OrderDoc)) (oid rid : Nat)
    (data : OrderIn) :
    (update_one orders oid rid data).map (fun p => (p.1, p.2.retailer_id))
      = orders.map (fun p => (p.1, p.2.retailer_id)) := by
  induction orders with
  | nil => rfl
  | cons o rest ih =>
    by_cases hmatch : (o.1 == oid && o.2.retailer_id == rid) = true
    · simp only [update_one, hmatch, if_true, List.map_cons]
      rfl
    · simp only [update_one, hmatch, Bool.false_eq_true, if_false, List.map_cons, ih]

/-! ## Claim theorems -/

/-- C1.  Cross-tenant isolation: an order owned by retailer A is never
returned by list_orders called as retailer B with B distinct from A, and is
neither modified nor removed by update_order or delete_order called as B,
whatever order id B supplies (the supplied id oid2 is arbitrary, so in
particular it may be A's exact order id); every order operation filters by the
authenticated retailer's id. -/
theorem cross_tenant_isolation (db : DBState) (A B : Nat) (rB : Retailer)
    (oid oid2 : Nat) (doc : OrderDoc) (data : OrderIn)
    (hown : doc.retailer_id = A) (hne : B ≠ A) (hmem : (oid, doc) ∈ db.orders) :
    (oid, doc) ∉ list_orders db (B, rB)
    ∧ (oid, doc) ∈ (update_order db (B, rB) oid2 data).2.orders
    ∧ (oid, doc) ∈ (delete_order db (B, rB) oid2).2.orders := by
  have hownne : doc.retailer_id ≠ B := by
    rw [hown]
    exact fun h => hne h.symm
  refine ⟨?_, ?_, ?_⟩
  · intro hcontra
    have := (List.mem_filter.mp hcontra).2
    exact hownne (beq_iff_eq.mp this)
  · exact mem_update_one_of_ne_owner oid2 B data hmem hownne
  · exact mem_delete_one_of_ne_owner oid2 B hmem hownne

/-- Concrete instance of the C1 theorem: a store holding one order owned by
retailer 1 is untouched and invisible when retailer 2 operates on it by its
exact id. -/
theorem cross_tenant_isolation_witness :
    ((10, (⟨1, "N1", OrderStatus.processing, 5, "EUR", [], none⟩ : OrderDoc)) ∉
        list_orders
          ⟨[], [], [(10, ⟨1, "N1", OrderStatus.processing, 5, "EUR", [], none⟩)], 11⟩
          (2, ⟨"b@x.com", "h", none, none, "retailer"⟩))
    ∧ ((10, (⟨1, "N1", OrderStatus.processing, 5, "EUR", [], none⟩ : OrderDoc)) ∈
        (update_order
          ⟨[], [], [(10, ⟨1, "N1", OrderStatus.processing, 5, "EUR", [], none⟩)], 11⟩
          (2, ⟨"b@x.com", "h", none, none, "retailer"⟩) 10
          ⟨"N2", OrderStatus.shipped, 9, "EUR", [], none⟩).2.orders)
    ∧ ((10, (⟨1, "N1", OrderStatus.processing, 5, "EUR", [], none⟩ : OrderDoc)) ∈
        (delete_order
          ⟨[], [], [(10, ⟨1, "N1", OrderStatus.processing, 5, "EUR", [], none⟩)], 11⟩
          (2, ⟨"b@x.com", "h", none, none, "retailer"⟩) 10).2.orders) :=
  cross_tenant_isolation
    ⟨[], [], [(10, ⟨1, "N1", OrderStatus.processing, 5, "EUR", [], none⟩)], 11⟩
    1 2 ⟨"b@x.com", "h", none, none, "retailer"⟩ 10 10
    ⟨1, "N1", OrderStatus.processing, 5, "EUR", [], none⟩
    ⟨"N2", OrderStatus.shipped, 9, "EUR", [], none⟩
    rfl (by decide) (by simp)

/-- C6.  Owner stamping on create: for every authenticated retailer and every
request body, create_order appends exactly one order document whose
retailer_id is the authenticated retailer's id and whose remaining fields come
from the body, and returns the generated id.  The body type OrderIn carries no
retailer_id field — pydantic drops unknown keys at the boundary — so a
client-supplied retailer_id is never used. -/
theorem create_order_stamps_owner (db : DBState) (current : Nat × Retailer)
    (data : OrderIn) :
    (create_order db current data).1 = db.nextId
    ∧ (create_order db current data).2.orders =
        db.orders ++ [(db.nextId,
          ⟨current.1, data.order_number, data.status, data.total_amount,
           data.currency, data.items, data.notes⟩)] :=
  ⟨rfl, rfl⟩

/-- C10.  Update preserves ownership: update_order sets only the six OrderIn
fields, which do not include retailer_id, so the id and retailer_id of every
stored order are unchanged by every update operation. -/
theorem update_preserves_owner (db : DBState) (current : Nat × Retailer)
    (oid : Nat) (data : OrderIn) :
    ((update_order db current oid data).2.orders).map (fun p => (p.1, p.2.retailer_id))
      = db.orders.map (fun p => (p.1, p.2.retailer_id)) :=
  update_one_map_owner db.orders oid current.1 data

/-- C7.  Silent zero-effect semantics: update_order and delete_order always
answer with the success string ok — also when the supplied order id matches
one of the caller's own orders — and when no stored order matches both the
supplied id and the caller's retailer id (the id is absent or the order
belongs to a different retailer) the store is returned unchanged, so the
response never reveals whether the order exists. -/
theorem silent_zero_effect (db : DBState) (current : Nat × Retailer)
    (oid : Nat) (data : OrderIn)
    (hno : ∀ p ∈ db.orders, ¬(p.1 = oid ∧ p.2.retailer_id = current.1)) :
    update_order db current oid data = ("ok", db)
    ∧ delete_order db current oid = ("ok", db)
    ∧ (∀ (db2 : DBState) (cur2 : Nat × Retailer) (oid2 : Nat) (data2 : OrderIn),
        (update_order db2 cur2 oid2 data2).1 = "ok"
        ∧ (delete_order db2 cur2 oid2).1 = "ok") := by
  refine ⟨?_, ?_, fun _ _ _ _ => ⟨rfl, rfl⟩⟩
  · show ("ok", { db with orders := update_one db.orders oid current.1 data }) = ("ok", db)
    rw [update_one_eq_of_no_match oid current.1 data hno]
  · show ("ok", { db with orders := delete_one db.orders oid current.1 }) = ("ok", db)
    rw [delete_one_eq_of_no_match oid current.1 hno]

/-- Concrete instance of the C7 theorem: retailer 2 updating and deleting an
order that belongs to retailer 1 gets the ok answer and the store is
unchanged. -/
theorem silent_zero_effect_witness :
    update_order
        ⟨[], [], [(10, ⟨1, "N1", OrderStatus.processing, 5, "EUR", [], none⟩)], 11⟩
        (2, ⟨"b@x.com", "h", none, none, "retailer"⟩) 10
        ⟨"N2", OrderStatus.shipped, 9, "EUR", [], none⟩
      = ("ok", ⟨[], [], [(10, ⟨1, "N1", OrderStatus.processing, 5, "EUR", [], none⟩)], 11⟩)
    ∧ delete_order
        ⟨[], [], [(10, ⟨1, "N1", OrderStatus.processing, 5, "EUR", [], none⟩)], 11⟩
        (2, ⟨"b@x.com", "h", none, none, "retailer"⟩) 10
      = ("ok", ⟨[], [], [(10, ⟨1, "N1", OrderStatus.processing, 5, "EUR", [], none⟩)], 11⟩)
    ∧ (∀ (db2 : DBState) (cur2 : Nat × Retailer) (oid2 : Nat) (data2 : OrderIn),
        (update_order db2 cur2 oid2 data2).1 = "ok"
        ∧ (delete_order db2 cur2 oid2).1 = "ok") :=
  silent_zero_effect
    ⟨[], [], [(10, ⟨1, "N1", OrderStatus.processing, 5, "EUR", [], none⟩)], 11⟩
    (2, ⟨"b@x.com", "h", none, none, "retailer"⟩) 10
    ⟨"N2", OrderStatus.shipped, 9, "EUR", [], none⟩
    (by decide)

/-! ## Email uniqueness (C9) -/

/-- At most one retailer per email: the stored retailer list is pairwise
distinct in its email field. -/
def emailsUnique (l : List (Nat × Retailer)) : Prop :=
  l.Pairwise (fun p q => p.2.email ≠ q.2.email)

/-- A sequence of registration requests applied to the store in order. -/
def registerSeq (db : DBState) (l : List RegisterIn) : DBState :=
  l.foldl (fun d data => (register d data).2) db

/-- One registration preserves email uniqueness of the retailer store. -/
theorem register_keeps_emailsUnique (db : DBState) (data : RegisterIn)
    (hu : emailsUnique db.retailers) : emailsUnique (register db data).2.retailers := by
  by_cases hex : (db.retailers.filter (fun p => p.2.email == data.email)).isEmpty = true
  · have hfilter : db.retailers.filter (fun p => p.2.email == data.email) = [] :=
      List.isEmpty_iff.mp hex
    have hall : ∀ p ∈ db.retailers, p.2.email ≠ data.email := by
      intro p hp h
      have := List.filter_eq_nil_iff.mp hfilter p hp
      exact this (by simp [h])
    simp only [register, hex, if_true]
    unfold emailsUnique
    rw [List.pairwise_append]
    refine ⟨hu, List.pairwise_singleton _ _, ?_⟩
    intro a ha b hb
    rw [List.mem_singleton] at hb
    subst hb
    exact hall a ha
  · simp only [register, hex, Bool.false_eq_true, if_false]
    exact hu

/-- C9.  Email uniqueness at registration: when some stored retailer already
has the requested email, register answers with the 400 duplicate-account error
and returns the store unchanged; and starting from a store with unique emails,
any sequence of registrations keeps emails unique, so there is at most one
retailer per email. -/
theorem register_email_unique (db : DBState) (data : RegisterIn) :
    ((∃ p ∈ db.retailers, p.2.email = data.email) →
        register db data = (Except.error ⟨400, "Account already exists"⟩, db))
    ∧ (∀ l : List RegisterIn, emailsUnique db.retailers →
        emailsUnique (registerSeq db l).retailers) := by
  constructor
  · rintro ⟨p, hp, he⟩
    have hpmem : p ∈ db.retailers.filter (fun q => q.2.email == data.email) :=
      List.mem_filter.mpr ⟨hp, by simp [he]⟩
    have hex : (db.retailers.filter (fun q => q.2.email == data.email)).isEmpty = false := by
      rcases hres : (db.retailers.filter (fun q => q.2.email == data.email)).isEmpty with _ | _
      · exact hres
      · exact absurd (List.isEmpty_iff.mp hres ▸ hpmem) (List.not_mem_nil p)
    simp only [register, hex, Bool.false_eq_true, if_false]
  · have general : ∀ (l : List RegisterIn) (d : DBState), emailsUnique d.retailers →
        emailsUnique (registerSeq d l).retailers := by
      intro l
      induction l with
      | nil => intro d hu; exact hu
      | cons x rest ih =>
        intro d hu
        exact ih (register d x).2 (register_keeps_emailsUnique d x hu)
    exact fun l hu => general l db hu

/-- Concrete instance of the C9 theorem: a second registration of a@x.com is
rejected with the duplicate-account error and leaves the store unchanged, and
a fresh registration keeps emails unique. -/
theorem register_email_unique_witness :
    register ⟨[(1, ⟨"a@x.com", "h1", none, none, "retailer"⟩)], [], [], 2⟩
        ⟨"a@x.com", "pw2", none, none⟩
      = (Except.error ⟨400, "Account already exists"⟩,
         ⟨[(1, ⟨"a@x.com", "h1", none, none, "retailer"⟩)], [], [], 2⟩)
    ∧ emailsUnique (registerSeq ⟨[(1, ⟨"a@x.com", "h1", none, none, "retailer"⟩)], [], [], 2⟩
        [⟨"b@x.com", "pw", none, none⟩]).retailers :=
  ⟨(register_email_unique ⟨[(1, ⟨"a@x.com", "h1", none, none, "retailer"⟩)], [], [], 2⟩
      ⟨"a@x.com", "pw2", none, none⟩).1
      ⟨(1, ⟨"a@x.com", "h1", none, none, "retailer"⟩), by simp, rfl⟩,
   (register_email_unique ⟨[(1, ⟨"a@x.com", "h1", none, none, "retailer"⟩)], [], [], 2⟩
      ⟨"a@x.com", "pw2", none, none⟩).2
      [⟨"b@x.com", "pw", none, none⟩]
      (List.pairwise_singleton _ _)⟩

/-- C4.  Login anti-enumeration: with correct credentials login answers with
the issued token; when the email is unknown and when the email is known but
the password hash differs, login answers with the identical 401
invalid-credentials error and leaves the store unchanged; and every failing
login carries exactly that one error value. -/
theorem login_anti_enumeration (db : DBState) (data : LoginIn) (token : String)
    (now : Rat) :
    (∀ rec, db.retailers.find? (fun p => p.2.email == data.email) = some rec →
        rec.2.password_hash = hash_password data.password →
        (login db data token now).1 = Except.ok token)
    ∧ (db.retailers.find? (fun p => p.2.email == data.email) = none →
        login db data token now = (Except.error ⟨401, "Invalid credentials"⟩, db))
    ∧ (∀ rec, db.retailers.find? (fun p => p.2.email == data.email) = some rec →
        rec.2.password_hash ≠ hash_password data.password →
        login db data token now = (Except.error ⟨401, "Invalid credentials"⟩, db))
    ∧ (∀ e, (login db data token now).1 = Except.error e →
        e = ⟨401, "Invalid credentials"⟩) := by
  refine ⟨?_, ?_, ?_, ?_⟩
  · intro rec hfind hhash
    simp only [login, hfind]
    rw [if_pos (by simp [hhash])]
  · intro hfind
    simp only [login, hfind]
  · intro rec hfind hhash
    simp only [login, hfind]
    rw [if_neg (by simp [hhash])]
  · intro e he
    rcases hfind : db.retailers.find? (fun p => p.2.email == data.email) with _ | rec
    · simp only [login, hfind] at he
      exact (Except.error.injEq _ _).mp he.symm ▸ rfl
    · by_cases hhash : (rec.2.password_hash == hash_password data.password) = true
      · simp only [login, hfind, hhash, if_true] at he
        cases he
      · simp only [login, hfind, hhash, Bool.false_eq_true, if_false] at he
        exact ((Except.error.injEq _ _).mp he.symm) ▸ rfl

/-- Concrete instance of the C4 theorem: login with the right password for a
stored account yields the token, and login against an unknown email yields the
invalid-credentials error with the store unchanged. -/
theorem login_anti_enumeration_witness :
    (login ⟨[(1, ⟨"a@x.com", hash_password "pw1", none, none, "retailer"⟩)], [], [], 2⟩
        ⟨"a@x.com", "pw1"⟩ "tok" 0).1 = Except.ok "tok"
    ∧ login ⟨[], [], [], 0⟩ ⟨"a@x.com", "pw1"⟩ "tok" 0
        = (Except.error ⟨401, "Invalid credentials"⟩, ⟨[], [], [], 0⟩) :=
  ⟨(login_anti_enumeration
      ⟨[(1, ⟨"a@x.com", hash_password "pw1", none, none, "retailer"⟩)], [], [], 2⟩
      ⟨"a@x.com", "pw1"⟩ "tok" 0).1
      (1, ⟨"a@x.com", hash_password "pw1", none, none, "retailer"⟩) (by simp) rfl,
   (login_anti_enumeration ⟨[], [], [], 0⟩ ⟨"a@x.com", "pw1"⟩ "tok" 0).2.1 rfl⟩

/-- C5.  Session expiry: every session persisted by login expires exactly
604800 seconds after the issuance time; no other endpoint touches the session
collection, so a session is never extended; and a stored session whose token
is presented as a bearer header validates successfully one second before its
expiry instant and fails with the 401 invalid-or-expired error one second
after it. -/
theorem session_expiry (db : DBState) :
    (∀ (data : LoginIn) (token t : String) (now : Rat) (db2 : DBState),
        login db data token now = (Except.ok t, db2) →
        ∃ rid : Nat, db2.sessions = db.sessions ++ [⟨token, rid, now + 604800⟩])
    ∧ (∀ data : RegisterIn, (register db data).2.sessions = db.sessions)
    ∧ (∀ (cur : Nat × Retailer) (data : OrderIn),
        (create_order db cur data).2.sessions = db.sessions)
    ∧ (∀ (cur : Nat × Retailer) (oid : Nat) (data : OrderIn),
        (update_order db cur oid data).2.sessions = db.sessions)
    ∧ (∀ (cur : Nat × Retailer) (oid : Nat),
        (delete_order db cur oid).2.sessions = db.sessions)
    ∧ (∀ (a : String) (s : Session) (rid : Nat) (r : Retailer),
        bearerHeader a = true →
        splitOnceTail a = s.token →
        db.sessions.find? (fun x => x.token == s.token) = some s →
        db.retailers.find? (fun p => p.1 == s.retailer_id) = some (rid, r) →
        get_current_retailer db (some a) (s.expires_at - 1) = Except.ok (rid, r)
        ∧ get_current_retailer db (some a) (s.expires_at + 1)
            = Except.error ⟨401, "Invalid or expired token"⟩) := by
  refine ⟨?_, ?_, fun _ _ => rfl, fun _ _ _ => rfl, fun _ _ => rfl, ?_⟩
  · intro data token t now db2 h
    rcases hfind : db.retailers.find? (fun p => p.2.email == data.email) with _ | rec
    · simp [login, hfind, Prod.mk.injEq] at h
    · by_cases hhash : (rec.2.password_hash == hash_password data.password) = true
      · simp only [login, hfind, hhash, if_true, Prod.mk.injEq] at h
        refine ⟨rec.1, ?_⟩
        rw [← h.2]
        have h604800 : (60 * 60 * 24 * 7 : Rat) = 604800 := by norm_num
        rw [h604800]
      · simp [login, hfind, hhash, Prod.mk.injEq] at h
  · intro data
    by_cases hex : (db.retailers.filter (fun p => p.2.email == data.email)).isEmpty = true
    · simp only [register, hex, if_true]
    · simp only [register, hex, Bool.false_eq_true, if_false]
  · intro a s rid r hba htok hfind hret
    have hnotlt : ¬(s.expires_at < s.expires_at - 1) := by linarith
    have hlt : s.expires_at < s.expires_at + 1 := by linarith
    constructor
    · simp only [get_current_retailer, hba, if_true, htok, hfind, hret]
      rw [if_neg hnotlt]
    · simp only [get_current_retailer, hba, if_true, htok, hfind]
      rw [if_pos hlt]

/-- Concrete instance of the C5 theorem: a store with one session expiring at
time 604800 and its retailer accepts the bearer token at time 604799 and
rejects it at time 604801 with the invalid-or-expired error. -/
theorem session_expiry_witness :
    get_current_retailer
        ⟨[(1, ⟨"a@x.com", "h1", none, none, "retailer"⟩)], [⟨"t1", 1, 604800⟩], [], 2⟩
        (some "Bearer t1") ((604800 : Rat) - 1)
      = Except.ok (1, ⟨"a@x.com", "h1", none, none, "retailer"⟩)
    ∧ get_current_retailer
        ⟨[(1, ⟨"a@x.com", "h1", none, none, "retailer"⟩)], [⟨"t1", 1, 604800⟩], [], 2⟩
        (some "Bearer t1") ((604800 : Rat) + 1)
      = Except.error ⟨401, "Invalid or expired token"⟩ :=
  (session_expiry
      ⟨[(1, ⟨"a@x.com", "h1", none, none, "retailer"⟩)], [⟨"t1", 1, 604800⟩], [], 2⟩).2.2.2.2.2
    "Bearer t1" ⟨"t1", 1, 604800⟩ 1 ⟨"a@x.com", "h1", none, none, "retailer"⟩
    (by decide) rfl rfl rfl

/-! ## Session lookup helpers for the validation contract -/

/-- Under pairwise-distinct tokens, find_one by token returns exactly the
stored session carrying that token. -/
theorem find?_session_of_mem {l : List Session} {s : Session} {t : String}
    (huniq : l.Pairwise (fun s1 s2 => s1.token ≠ s2.token))
    (hmem : s ∈ l) (ht : s.token = t) :
    l.find? (fun x => x.token == t) = some s := by
  induction l with
  | nil => simp at hmem
  | cons x rest ih =>
    rcases List.mem_cons.mp hmem with h | h
    · subst h
      simp [List.find?, ht]
    · have hx : (x.token == t) = false := by
        rw [beq_eq_false_iff_ne]
        rw [← ht]
        exact (List.pairwise_cons.mp huniq).1 s h
      simp only [List.find?, hx]
      exact ih (List.pairwise_cons.mp huniq).2 h

/-- When no stored session carries the token, find_one by token fails. -/
theorem find?_session_of_absent {l : List Session} {t : String}
    (habs : ∀ s ∈ l, s.token ≠ t) :
    l.find? (fun x => x.token == t) = none := by
  rw [List.find?_eq_none]
  intro s hs
  simp [habs s hs]

/-- C2 counterexample.  The claim maps an empty bearer token to the
missing-token failure, but the code only treats a header that is absent or
lacks the bearer marker as missing: the header consisting of the marker alone
carries an empty token, passes the marker check, reaches the session lookup
and fails with the invalid-or-expired response instead, which differs from the
missing-token response. -/
theorem empty_token_counterexample :
    get_current_retailer ⟨[], [], [], 0⟩ (some "Bearer ") 0
      = Except.error ⟨401, "Invalid or expired token"⟩
    ∧ (Http.mk 401 "Invalid or expired token") ≠ (Http.mk 401 "Missing token") := by
  constructor
  · rfl
  · decide

/-- C2 as amended.  Session validation is characterised stage by stage, for a
store whose session tokens are pairwise distinct: a missing header or one
without the case-insensitive bearer marker fails as missing-token; with the
marker present (which an empty token satisfies via the header that is the
marker alone), the absence of a session carrying the extracted token fails as
invalid-token; a matching session whose expires_at is strictly in the past
fails as expired-token, with the identical message; an unexpired match whose
retailer id resolves no stored retailer fails as retailer-not-found; and an
unexpired match whose retailer resolves returns exactly that retailer. -/
theorem session_validation_contract (db : DBState) (a : String) (now : Rat)
    (huniq : db.sessions.Pairwise (fun s1 s2 => s1.token ≠ s2.token)) :
    (get_current_retailer db none now = Except.error ⟨401, "Missing token"⟩)
    ∧ (bearerHeader a = false →
        get_current_retailer db (some a) now = Except.error ⟨401, "Missing token"⟩)
    ∧ (bearerHeader a = true → (∀ s ∈ db.sessions, s.token ≠ splitOnceTail a) →
        get_current_retailer db (some a) now
          = Except.error ⟨401, "Invalid or expired token"⟩)
    ∧ (∀ s ∈ db.sessions, bearerHeader a = true → s.token = splitOnceTail a →
        s.expires_at < now →
        get_current_retailer db (some a) now
          = Except.error ⟨401, "Invalid or expired token"⟩)
    ∧ (∀ s ∈ db.sessions, bearerHeader a = true → s.token = splitOnceTail a →
        ¬(s.expires_at < now) →
        (db.retailers.find? (fun p => p.1 == s.retailer_id) = none →
          get_current_retailer db (some a) now
            = Except.error ⟨401, "Retailer not found"⟩)
        ∧ (∀ rr : Nat × Retailer,
            db.retailers.find? (fun p => p.1 == s.retailer_id) = some rr →
            get_current_retailer db (some a) now = Except.ok rr)) := by
  refine ⟨rfl, ?_, ?_, ?_, ?_⟩
  · intro hba
    simp [get_current_retailer, hba]
  · intro hba habs
    have hnone := find?_session_of_absent habs
    simp only [get_current_retailer, hba, if_true, hnone]
  · intro s hs hba ht hexp
    have hfind := find?_session_of_mem huniq hs ht
    simp only [get_current_retailer, hba, if_true, hfind]
    rw [if_pos hexp]
  · intro s hs hba ht hexp
    have hfind := find?_session_of_mem huniq hs ht
    constructor
    · intro hret
      simp only [get_current_retailer, hba, if_true, hfind, hret]
      rw [if_neg hexp]
    · intro rr hret
      simp only [get_current_retailer, hba, if_true, hfind, hret]
      rw [if_neg hexp]

/-- Concrete instance of the C2 amended theorem: in a store with a single
live session for retailer 1, presenting the bearer token validates to that
retailer, and a missing header fails as missing-token. -/
theorem session_validation_contract_witness :
    get_current_retailer
        ⟨[(1, ⟨"a@x.com", "h1", none, none, "retailer"⟩)], [⟨"t1", 1, 604800⟩], [], 2⟩
        (some "Bearer t1") 0
      = Except.ok (1, ⟨"a@x.com", "h1", none, none, "retailer"⟩)
    ∧ get_current_retailer
        ⟨[(1, ⟨"a@x.com", "h1", none, none, "retailer"⟩)], [⟨"t1", 1, 604800⟩], [], 2⟩
        none 0
      = Except.error ⟨401, "Missing token"⟩ :=
  ⟨((session_validation_contract
      ⟨[(1, ⟨"a@x.com", "h1", none, none, "retailer"⟩)], [⟨"t1", 1, 604800⟩], [], 2⟩
      "Bearer t1" 0 (List.pairwise_singleton _ _)).2.2.2.2
      ⟨"t1", 1, 604800⟩ (by simp) (by decide) rfl (by norm_num)).2
      (1, ⟨"a@x.com", "h1", none, none, "retailer"⟩) rfl,
   (session_validation_contract
      ⟨[(1, ⟨"a@x.com", "h1", none, none, "retailer"⟩)], [⟨"t1", 1, 604800⟩], [], 2⟩
      "Bearer t1" 0 (List.pairwise_singleton _ _)).1⟩

/-- C3 counterexample.  Two requests failing session validation at different
stages are distinguishable: a missing header and an unknown token both answer
401 but with different messages, so the caller-visible responses are not
identical. -/
theorem auth_message_counterexample :
    get_current_retailer ⟨[], [], [], 0⟩ none 0 = Except.error ⟨401, "Missing token"⟩
    ∧ get_current_retailer ⟨[], [], [], 0⟩ (some "Bearer abc") 0
        = Except.error ⟨401, "Invalid or expired token"⟩
    ∧ (Http.mk 401 "Missing token").detail ≠ (Http.mk 401 "Invalid or expired token").detail := by
  refine ⟨rfl, rfl, ?_⟩
  decide

/-- C3 as amended.  Every session-validation failure carries the same 401
status, and the unknown-token and expired-token stages produce the one
identical response, while the missing-header and missing-retailer stages carry
their own messages (401 with a three-way message partition). -/
theorem auth_failure_status (db : DBState) (auth : Option String) (now : Rat) :
    (∀ e : Http, get_current_retailer db auth now = Except.error e →
        e.status = 401
        ∧ (e.detail = "Missing token" ∨ e.detail = "Invalid or expired token"
            ∨ e.detail = "Retailer not found"))
    ∧ (∀ a, auth = some a → bearerHeader a = true →
        db.sessions.find? (fun x => x.token == splitOnceTail a) = none →
        get_current_retailer db auth now
          = Except.error ⟨401, "Invalid or expired token"⟩)
    ∧ (∀ a s, auth = some a → bearerHeader a = true →
        db.sessions.find? (fun x => x.token == splitOnceTail a) = some s →
        s.expires_at < now →
        get_current_retailer db auth now
          = Except.error ⟨401, "Invalid or expired token"⟩) := by
  refine ⟨?_, ?_, ?_⟩
  · intro e he
    rcases auth with _ | a
    · simp only [get_current_retailer] at he
      cases he
      exact ⟨rfl, Or.inl rfl⟩
    · by_cases hba : bearerHeader a = true
      · simp only [get_current_retailer, hba, if_true] at he
        rcases hfind : db.sessions.find? (fun x => x.token == splitOnceTail a) with _ | s
        · simp only [hfind] at he
          cases he
          exact ⟨rfl, Or.inr (Or.inl rfl)⟩
        · simp only [hfind] at he
          by_cases hexp : s.expires_at < now
          · rw [if_pos hexp] at he
            cases he
            exact ⟨rfl, Or.inr (Or.inl rfl)⟩
          · rw [if_neg hexp] at he
            rcases hret : db.retailers.find? (fun p => p.1 == s.retailer_id) with _ | rr
            · simp only [hret] at he
              cases he
              exact ⟨rfl, Or.inr (Or.inr rfl)⟩
            · simp only [hret] at he
              cases he
      · simp only [get_current_retailer, hba, Bool.false_eq_true, if_false] at he
        cases he
        exact ⟨rfl, Or.inl rfl⟩
  · rintro a rfl hba hfind
    simp only [get_current_retailer, hba, if_true, hfind]
  · rintro a s rfl hba hfind hexp
    simp only [get_current_retailer, hba, if_true, hfind]
    rw [if_pos hexp]

/-- Concrete instance of the C3 amended theorem: the missing-header failure
carries status 401, and an unknown token produces exactly the
invalid-or-expired response. -/
theorem auth_failure_status_witness :
    ((Http.mk 401 "Missing token").status = 401
      ∧ ((Http.mk 401 "Missing token").detail = "Missing token"
          ∨ (Http.mk 401 "Missing token").detail = "Invalid or expired token"
          ∨ (Http.mk 401 "Missing token").detail = "Retailer not found"))
    ∧ get_current_retailer ⟨[], [], [], 0⟩ (some "Bearer abc") 0
        = Except.error ⟨401, "Invalid or expired token"⟩ :=
  ⟨(auth_failure_status ⟨[], [], [], 0⟩ none 0).1 ⟨401, "Missing token"⟩ rfl,
   (auth_failure_status ⟨[], [], [], 0⟩ (some "Bearer abc") 0).2.1 "Bearer abc" rfl
     (by decide) rfl⟩

/-! ## Digest shape lemmas for the credential hasher -/

/-- Compression always yields the eight hash words. -/
theorem compress_length (hs block : List Nat) : (compress hs block).length = 8 := rfl

/-- Folding compression over any block list keeps eight hash words. -/
theorem foldl_compress_length (blocks : List (List Nat)) :
    ∀ hs : List Nat, hs.length = 8 → (blocks.foldl compress hs).length = 8 := by
  induction blocks with
  | nil => intro hs h; exact h
  | cons b rest ih => intro hs _; exact ih (compress hs b) (compress_length hs b)

/-- Flattening the byte decomposition of a word list yields four bytes per
word. -/
theorem flatten_map_wordBytes_length (ws : List Nat) :
    ((ws.map wordBytes).flatten).length = 4 * ws.length := by
  induction ws with
  | nil => rfl
  | cons w rest ih =>
    simp only [List.map_cons, List.flatten_cons, List.length_append, ih,
      List.length_cons]
    simp only [wordBytes, List.length_cons, List.length_nil]
    omega

/-- A SHA-256 digest consists of exactly 32 bytes. -/
theorem sha256_length (ms : List Nat) : (sha256 ms).length = 32 := by
  show (((
    ((chunk64 (padMsg ms)).map bytesToWords).foldl compress sha256H0)).map wordBytes).flatten.length = 32
  rw [flatten_map_wordBytes_length,
    foldl_compress_length _ sha256H0 rfl]

/-- Every byte of a SHA-256 digest is below 256. -/
theorem sha256_mem_lt (ms : List Nat) : ∀ b ∈ sha256 ms, b < 256 := by
  intro b hb
  have hb2 : b ∈ ((((chunk64 (padMsg ms)).map bytesToWords).foldl compress
      sha256H0).map wordBytes).flatten := hb
  rw [List.mem_flatten] at hb2
  obtain ⟨l, hl, hbl⟩ := hb2
  rw [List.mem_map] at hl
  obtain ⟨w, _, hw⟩ := hl
  subst hw
  simp only [wordBytes, List.mem_cons, List.not_mem_nil, or_false] at hbl
  rcases hbl with h | h | h | h <;> (subst h; exact Nat.mod_lt _ (by norm_num))

/-- The hex rendering of a byte list has two characters per byte. -/
theorem hexOfBytes_length (bs : List Nat) : (hexOfBytes bs).length = 2 * bs.length := by
  show ((bs.map (fun b => [hexChar (b / 16), hexChar (b % 16)])).flatten).length
      = 2 * bs.length
  induction bs with
  | nil => rfl
  | cons b rest ih =>
    simp only [List.map_cons, List.flatten_cons, List.length_append, ih,
      List.length_cons]
    simp only [List.length_nil]
    omega

/-- A hex character of a value below 16 is one of the sixteen lowercase hex
digits. -/
theorem hexChar_mem_digits : ∀ n < 16, hexChar n ∈ ("0123456789abcdef").data := by
  decide

/-- C8.  Credential hashing: hash_password is a Lean function, hence total,
deterministic and side-effect free on every input string; its value has
exactly the form salt, dollar sign, hex digest, where the digest is the
SHA-256 hash of the salt concatenated with the plaintext, rendered as 64
lowercase hex characters.  Verification in login is the equality test of
hash_password of the candidate against the stored hash (see the
login_anti_enumeration development). -/
theorem hash_password_form (p : String) :
    hash_password p = SALT ++ "$" ++ hexOfBytes (sha256 (strBytes (SALT ++ p)))
    ∧ (hexOfBytes (sha256 (strBytes (SALT ++ p)))).length = 64
    ∧ ((hexOfBytes (sha256 (strBytes (SALT ++ p)))).data.all
        (fun c => decide (c ∈ ("0123456789abcdef").data))) = true := by
  refine ⟨rfl, ?_, ?_⟩
  · rw [hexOfBytes_length, sha256_length]
  · rw [List.all_eq_true]
    intro c hc
    rw [decide_eq_true_eq]
    have hc2 : c ∈ ((sha256 (strBytes (SALT ++ p))).map
        (fun b => [hexChar (b / 16), hexChar (b % 16)])).flatten := hc
    rw [List.mem_flatten] at hc2
    obtain ⟨l, hl, hcl⟩ := hc2
    rw [List.mem_map] at hl
    obtain ⟨b, hb, hbl⟩ := hl
    subst hbl
    have hblt : b < 256 := sha256_mem_lt _ b hb
    simp only [List.mem_cons, List.not_mem_nil, or_false] at hcl
    rcases hcl with h | h
    · subst h
      exact hexChar_mem_digits (b / 16) (by omega)
    · subst h
      exact hexChar_mem_digits (b % 16) (Nat.mod_lt _ (by norm_num))
